import Mathlib

/-!
# Verification of the dxgcap screen-capture core

Shallow embedding of `src/lib.rs` (the DXGI desktop-duplication capture
core): the `UniqueCOMPtr` ownership wrapper, the adapter-output enumerator
`get_adater_outputs`, and the `DuplicatedOutput` capture state machine
(`get_frame`, `release_frame`, `is_primary`).

The foreign graphics subsystem (DXGI/D3D11/user32) is opaque: each foreign
call's observable result (an HRESULT status, a written description record,
a BOOL) is supplied by an environment structure of functions, and the
embedded Rust functions are pure functions of that environment.  HRESULTs
are `Int` (failure means negative, as in `hr_failed`).  A Rust panic
(`.unwrap()` on an `Err`) is modelled as a distinct outcome constructor
rather than a returned value.
-/

namespace Dxgcap

/-- `pub fn hr_failed(hr: HRESULT) -> bool { hr < 0 }` (lib.rs line 105). -/
def hr_failed (hr : Int) : Bool := hr < 0

/-- The part of `DXGI_OUTPUT_DESC` that `lib.rs` reads: the
`AttachedToDesktop` BOOL (compared against 0 in `get_adater_outputs`) and
the `Monitor` handle (passed to `GetMonitorInfoW` in `is_primary`). -/
structure OUTPUT_DESC where
  AttachedToDesktop : Nat
  Monitor : Nat
deriving DecidableEq

/-- Environment for one adapter: the observable results of the foreign
calls made by `get_adater_outputs`.  `enumOutputs i` is the HRESULT of
`adapter.EnumOutputs(i, ..)`; `descAt i` is the description that
`(*output).GetDesc` writes for the output returned at index `i` (consulted
by the embedding only when `enumOutputs i` succeeded, as in the source). -/
structure AdapterEnv where
  enumOutputs : Nat → Int
  descAt : Nat → OUTPUT_DESC

/-- One step of the iterator closure in `get_adater_outputs`
(lib.rs lines 108-118): `EnumOutputs(i)`; on failure `None`; otherwise
read the description and yield the output iff `AttachedToDesktop != 0`.
The output is identified by its index. -/
def enumStep (env : AdapterEnv) (i : Nat) : Option Nat :=
  if hr_failed (env.enumOutputs i) then none
  else if (env.descAt i).AttachedToDesktop ≠ 0 then some i else none

/-- The iterator chain `(0..).map(..).take_while(Option::is_some)
.map(Option::unwrap).collect()` (lib.rs lines 108-120), with explicit
fuel standing for the unbounded `(0..)` range: starting at index `i`,
collect the yielded outputs and stop at the first step that yields `None`
(`take_while` consumes that element too).  The second component counts the
`EnumOutputs` foreign calls performed by the invocation: one per index
visited, including the terminating index. -/
def getAdapterOutputsTracedAux (env : AdapterEnv) : Nat → Nat → List Nat × Nat
  | 0, _ => ([], 0)
  | fuel + 1, i =>
    match enumStep env i with
    | none => ([], 1)
    | some o =>
      let rest := getAdapterOutputsTracedAux env fuel (i + 1)
      (o :: rest.1, rest.2 + 1)

/-- `get_adater_outputs` together with its foreign-call count
(the count is the number of `EnumOutputs` calls the invocation performs,
all of them before the function returns its `Vec`). -/
def get_adater_outputs_traced (env : AdapterEnv) (fuel : Nat) : List Nat × Nat :=
  getAdapterOutputsTracedAux env fuel 0

/-- `pub fn get_adater_outputs(adapter) -> Vec<UniqueCOMPtr<IDXGIOutput>>`
(lib.rs lines 107-121): the fully materialized vector the call returns. -/
def get_adater_outputs (env : AdapterEnv) (fuel : Nat) : List Nat :=
  (get_adater_outputs_traced env fuel).1

/-- Index `i` yields an element: `EnumOutputs(i)` succeeds and the output's
description marks it attached to the desktop. -/
def okAttached (env : AdapterEnv) (i : Nat) : Prop :=
  ¬ hr_failed (env.enumOutputs i) ∧ (env.descAt i).AttachedToDesktop ≠ 0

instance (env : AdapterEnv) (i : Nat) : Decidable (okAttached env i) :=
  inferInstanceAs (Decidable (_ ∧ _))

/-! ## UniqueCOMPtr: refcount accounting of `query_interface` and `Drop`

Lines 60-103 of lib.rs.  The wrapper holds exactly one foreign reference.
We model the refcount-relevant events of the underlying COM object as a
trace: `Drop` issues one `Release` (lines 95-100); `query_interface`
(lines 71-81) performs the foreign `QueryInterface` call — whose COM
contract hands back the new interface pointer with a fresh reference,
i.e. an `AddRef` on the same object, exactly when the HRESULT succeeds —
and then `self`, consumed by value, goes out of scope at the end of the
body on both branches, running `Drop`. -/

inductive RCEvent where
  | addRef
  | release
deriving DecidableEq

/-- `impl Drop for UniqueCOMPtr { fn drop(&mut self) { self.Release(); } }`:
the destructor issues exactly one `Release`. -/
def drop_events : List RCEvent := [RCEvent.release]

/-- Refcount events on the underlying object during
`query_interface(self, iid)` whose foreign `QueryInterface` call returned
`hr`: the foreign call AddRefs on success (COM contract), and the
consumed `self` is dropped at the end of the body on both branches. -/
def query_interface_events (hr : Int) : List RCEvent :=
  (if hr_failed hr then [] else [RCEvent.addRef]) ++ drop_events

/-- The `Result` returned by `query_interface` (`()` stands for the new
`UniqueCOMPtr<U>` handle produced by `from_ptr` on success). -/
def query_interface_result (hr : Int) : Except Int Unit :=
  if hr_failed hr then Except.error hr else Except.ok ()

/-- Number of `Release` calls in a trace. -/
def releaseCount (es : List RCEvent) : Nat := es.count RCEvent.release

/-- Number of `AddRef` calls in a trace. -/
def addRefCount (es : List RCEvent) : Nat := es.count RCEvent.addRef

/-! ## D3D11 texture descriptions and the staging derivation -/

/-- The `D3D11_USAGE` enumeration. -/
inductive D3D11_USAGE where
  | D3D11_USAGE_DEFAULT
  | D3D11_USAGE_IMMUTABLE
  | D3D11_USAGE_DYNAMIC
  | D3D11_USAGE_STAGING
deriving DecidableEq

/-- `D3D11_CPU_ACCESS_READ as u32` = 0x20000. -/
def D3D11_CPU_ACCESS_READ : Nat := 0x20000

/-- `D3D11_TEXTURE2D_DESC`: the fields `get_frame` rewrites plus the ones
it leaves untouched (size, mip levels, array size, format, sampling). -/
structure TEXTURE2D_DESC where
  Width : Nat
  Height : Nat
  MipLevels : Nat
  ArraySize : Nat
  Format : Nat
  SampleCount : Nat
  SampleQuality : Nat
  Usage : D3D11_USAGE
  BindFlags : Nat
  CPUAccessFlags : Nat
  MiscFlags : Nat
deriving DecidableEq

/-- Lines 151-158 of lib.rs: read the frame texture's description and
rewrite it in place — `Usage = D3D11_USAGE_STAGING; BindFlags = 0;
CPUAccessFlags = D3D11_CPU_ACCESS_READ as u32; MiscFlags = 0` — leaving
every other field as the source texture had it. -/
def stagingDesc (d : TEXTURE2D_DESC) : TEXTURE2D_DESC :=
  { d with
    Usage := D3D11_USAGE.D3D11_USAGE_STAGING
    BindFlags := 0
    CPUAccessFlags := D3D11_CPU_ACCESS_READ
    MiscFlags := 0 }

/-! ## DuplicatedOutput: get_frame / release_frame / is_primary -/

/-- `timeout.num_milliseconds() as u32` (lib.rs line 140): the signed
64-bit millisecond count is cast to `u32` by truncation, i.e. reduction
modulo 2^32 of the two's-complement bit pattern. -/
def as_u32 (ms : Int) : Nat := (ms % 4294967296).toNat

/-- Outcome of one `get_frame` invocation: `ok` (the final
`query_interface` succeeded and the `IDXGISurface1` handle is returned),
`err hr` (an `Err(hr)` return), or `panicked` (an `.unwrap()` hit an
`Err`, aborting instead of returning). -/
inductive GetFrameResult where
  | ok
  | err (hr : Int)
  | panicked
deriving DecidableEq

/-- Observable results of the foreign calls `get_frame` makes, in source
order: `AcquireNextFrame` (HRESULT as a function of the `u32` timeout
actually passed), `frame_resource.query_interface(&IID_ID3D11Texture2D)`,
`frame_texture.GetDesc`, `device.CreateTexture2D` (HRESULT as a function
of the description passed),
`readable_texture.query_interface(&IID_ID3D11Resource)`,
`frame_texture.query_interface(&IID_ID3D11Resource)`, and
`readable_surface.query_interface(&IID_IDXGISurface1)`. -/
structure FrameEnv where
  acquireNextFrame : Nat → Int
  qiTexture2D : Int
  textureDesc : TEXTURE2D_DESC
  createTexture2D : TEXTURE2D_DESC → Int
  qiReadableResource : Int
  qiFrameResource : Int
  qiSurface1 : Int

/-- `fn get_frame(&mut self, timeout: Duration)` (lib.rs lines 136-180),
threading the duplication session's acquired-frame flag: `true` iff a
frame pulled by `AcquireNextFrame` has not yet been released by
`ReleaseFrame`.  A successful `AcquireNextFrame` sets the flag; no path
of `get_frame` calls `ReleaseFrame`, so no path clears it.  The two
`.unwrap()` calls on intermediate `query_interface` results (lines 149,
174 and 177) abort on failure (`panicked`); the `CreateTexture2D` failure
and the final `query_interface` failure return `Err(hr)`. -/
def get_frame (env : FrameEnv) (timeout_ms : Int) (acquired : Bool) :
    GetFrameResult × Bool :=
  let hrAcq := env.acquireNextFrame (as_u32 timeout_ms)
  if hr_failed hrAcq then (GetFrameResult.err hrAcq, acquired)
  else
    -- the session now holds an acquired frame
    if hr_failed env.qiTexture2D then (GetFrameResult.panicked, true)
    else
      let desc := stagingDesc env.textureDesc
      let hrCreate := env.createTexture2D desc
      if hr_failed hrCreate then (GetFrameResult.err hrCreate, true)
      else if hr_failed env.qiReadableResource then (GetFrameResult.panicked, true)
      else if hr_failed env.qiFrameResource then (GetFrameResult.panicked, true)
      else if hr_failed env.qiSurface1 then (GetFrameResult.err env.qiSurface1, true)
      else (GetFrameResult.ok, true)

/-- `fn release_frame(&mut self)` (lib.rs lines 182-185): one call to
`self.dxgi_output_dup.ReleaseFrame()` whose HRESULT is `hr`; the second
component counts the invocations of that foreign primitive performed by
the body (the body consists of exactly that single call). -/
def release_frame (hr : Int) : Except Int Unit × Nat :=
  (if hr_failed hr then Except.error hr else Except.ok (), 1)

/-- Environment for `is_primary`: `GetMonitorInfoW` per monitor handle,
giving the BOOL result of the call and the `dwFlags` value the call
writes into the `MONITORINFO` record when it succeeds (on failure the
record is not written and keeps its `mem::zeroed()` contents). -/
structure WinEnv where
  monitorInfo : Nat → Bool × Nat

/-- `fn is_primary(&mut self)` (lib.rs lines 187-197), threading the
session's acquired-frame flag unchanged: the body only calls
`self.output.GetDesc` (producing `desc`) and `GetMonitorInfoW` on
`desc.Monitor`, ignoring the latter's BOOL result, and returns
`(monitor_info.dwFlags & 1) != 0` where `dwFlags` is zero when the call
failed (zero-initialized record). -/
def is_primary (desc : OUTPUT_DESC) (win : WinEnv) (acquired : Bool) :
    Bool × Bool :=
  let r := win.monitorInfo desc.Monitor
  let dwFlags := if r.1 then r.2 else 0
  (Nat.land dwFlags 1 != 0, acquired)

/-! ## Concrete environments used as test scenarios -/

/-- The spec's end-to-end scenario: attached outputs at indices 0 and 1,
a detached output at index 2, `DXGI_ERROR_NOT_FOUND` (0x887A0002, i.e.
-2005270526 as a signed 32-bit HRESULT) from index 3 on. -/
def specExampleEnv : AdapterEnv where
  enumOutputs := fun i => if i < 3 then 0 else -2005270526
  descAt := fun i => { AttachedToDesktop := if i < 2 then 1 else 0, Monitor := i }

/-- An adapter reporting a detached output at index 0, an attached output
at index 1, and `DXGI_ERROR_NOT_FOUND` from index 2 on. -/
def detachedFirstEnv : AdapterEnv where
  enumOutputs := fun i => if i < 2 then 0 else -2005270526
  descAt := fun i => { AttachedToDesktop := if i = 1 then 1 else 0, Monitor := i }

/-- An adapter reporting attached outputs at indices 0 and 1 and
`DXGI_ERROR_NOT_FOUND` from index 2 on. -/
def twoAttachedEnv : AdapterEnv where
  enumOutputs := fun i => if i < 2 then 0 else -2005270526
  descAt := fun i => { AttachedToDesktop := 1, Monitor := i }

/-- A typical desktop frame texture description (1920x1080 B8G8R8A8,
bindable as render target and shader resource). -/
def frameDesc : TEXTURE2D_DESC where
  Width := 1920
  Height := 1080
  MipLevels := 1
  ArraySize := 1
  Format := 87
  SampleCount := 1
  SampleQuality := 0
  Usage := D3D11_USAGE.D3D11_USAGE_DEFAULT
  BindFlags := 40
  CPUAccessFlags := 0
  MiscFlags := 0

/-- A capture in which `AcquireNextFrame` succeeds but the
`query_interface(&IID_ID3D11Texture2D)` call fails with `E_NOINTERFACE`
(0x80004002, i.e. -2147467262 signed); every later call would succeed. -/
def qiFailEnv : FrameEnv where
  acquireNextFrame := fun _ => 0
  qiTexture2D := -2147467262
  textureDesc := frameDesc
  createTexture2D := fun _ => 0
  qiReadableResource := 0
  qiFrameResource := 0
  qiSurface1 := 0

/-- A capture in which `AcquireNextFrame` and the texture reinterpretation
succeed but `CreateTexture2D` fails with `DXGI_ERROR_DEVICE_REMOVED`
(0x887A0005, i.e. -2005270523 signed). -/
def createFailEnv : FrameEnv where
  acquireNextFrame := fun _ => 0
  qiTexture2D := 0
  textureDesc := frameDesc
  createTexture2D := fun _ => -2005270523
  qiReadableResource := 0
  qiFrameResource := 0
  qiSurface1 := 0

/-- An output description whose monitor handle is 7. -/
def monitor7Desc : OUTPUT_DESC where
  AttachedToDesktop := 1
  Monitor := 7

/-- A windowing environment where `GetMonitorInfoW` succeeds and reports
`dwFlags = 1` (`MONITORINFOF_PRIMARY`) for monitor 7 and 0 otherwise. -/
def primaryWin : WinEnv where
  monitorInfo := fun m => (true, if m = 7 then 1 else 0)

/-- A windowing environment where `GetMonitorInfoW` always fails; the 5 is
the `dwFlags` it would have written had it succeeded (bit 0 set), never
actually written to the zero-initialized record. -/
def failWin : WinEnv where
  monitorInfo := fun _ => (false, 5)

/-! ## Helper lemmas -/

theorem enumStep_eq_some (env : AdapterEnv) (i : Nat) :
    enumStep env i = some i ↔ okAttached env i := by
  unfold enumStep okAttached
  by_cases h1 : hr_failed (env.enumOutputs i) <;>
    by_cases h2 : (env.descAt i).AttachedToDesktop ≠ 0 <;>
    simp [h1, h2]

theorem enumStep_eq_none (env : AdapterEnv) (i : Nat) :
    enumStep env i = none ↔ ¬ okAttached env i := by
  unfold enumStep okAttached
  by_cases h1 : hr_failed (env.enumOutputs i) <;>
    by_cases h2 : (env.descAt i).AttachedToDesktop ≠ 0 <;>
    simp [h1, h2]

theorem enumStep_shape (env : AdapterEnv) (i : Nat) :
    enumStep env i = none ∨ enumStep env i = some i := by
  unfold enumStep
  by_cases h1 : hr_failed (env.enumOutputs i) <;>
    by_cases h2 : (env.descAt i).AttachedToDesktop ≠ 0 <;>
    simp [h1, h2]

/-- Full characterisation of the enumerator loop from start index `i`:
the result is the run of consecutive indices `i, i+1, …, i+k-1` on which
`okAttached` holds, cut off either by the first index where it fails
(which also costs one foreign call) or by fuel exhaustion. -/
theorem getAdapterOutputsTracedAux_spec (env : AdapterEnv) :
    ∀ fuel i, ∃ k,
      (getAdapterOutputsTracedAux env fuel i).1 = List.range' i k ∧
      k ≤ fuel ∧
      (∀ j, i ≤ j → j < i + k → okAttached env j) ∧
      (k < fuel → ¬ okAttached env (i + k)) ∧
      (getAdapterOutputsTracedAux env fuel i).2 = min fuel (k + 1) := by
  intro fuel
  induction fuel with
  | zero =>
    intro i
    exact ⟨0, rfl, Nat.le_refl 0, fun j h1 h2 => absurd (Nat.lt_of_le_of_lt h1 h2)
      (by simp), fun h => absurd h (by simp), rfl⟩
  | succ n ih =>
    intro i
    rcases enumStep_shape env i with hnone | hsome
    · refine ⟨0, ?_, Nat.zero_le _, fun j h1 h2 => absurd (Nat.lt_of_le_of_lt h1 h2)
        (by simp), fun _ => ?_, ?_⟩
      · simp [getAdapterOutputsTracedAux, hnone]
      · simpa using (enumStep_eq_none env i).mp hnone
      · simp [getAdapterOutputsTracedAux, hnone, Nat.min_def]
    · obtain ⟨k, hlist, hk, hall, hstop, hcount⟩ := ih (i + 1)
      refine ⟨k + 1, ?_, Nat.succ_le_succ hk, ?_, ?_, ?_⟩
      · simp [getAdapterOutputsTracedAux, hsome, List.range'_succ, hlist]
      · intro j h1 h2
        rcases Nat.eq_or_lt_of_le h1 with rfl | h1'
        · exact (enumStep_eq_some env _).mp hsome
        · exact hall j h1' (by omega)
      · intro h
        have := hstop (Nat.lt_of_succ_lt_succ h)
        simpa [Nat.add_assoc, Nat.add_comm 1 k] using this
      · simp only [getAdapterOutputsTracedAux, hsome, hcount]
        omega

/-- Extracting bit 0 as the source writes it: `(dwFlags & 1) != 0` is
exactly "bit 0 of `dwFlags` is set". -/
theorem land_one_bne_zero (n : Nat) : (Nat.land n 1 != 0) = Nat.testBit n 0 := by
  have hmod : Nat.land n 1 = n % 2 := Nat.and_one_is_mod n
  rw [hmod, Nat.testBit_zero]
  rcases Nat.mod_two_eq_zero_or_one n with h | h <;> simp [h]

/-! ## Claim C1: detached outputs and the produced sequence -/

/-- Claim C1 counterexample: the claim says a detached output is silently
skipped and later attached outputs at higher indices still appear.  In
`detachedFirstEnv` index 0 is detached and index 1 is a perfectly good
attached output (`okAttached` holds at 1), yet `get_adater_outputs`
returns the empty vector: the detached output at index 0 terminated the
`take_while`-based enumeration, and the attached output at index 1 does
not appear. -/
theorem get_adater_outputs_skips_cex :
    okAttached detachedFirstEnv 1 ∧
    get_adater_outputs detachedFirstEnv 10 = [] ∧
    1 ∉ get_adater_outputs detachedFirstEnv 10 := by
  refine ⟨by decide, by decide, ?_⟩
  intro h
  rw [show get_adater_outputs detachedFirstEnv 10 = [] from by decide] at h
  simp at h

/-- Claim C1 (amended): the enumerator yields exactly the outputs at the
consecutive indices `0, …, k-1` on which `EnumOutputs` succeeds and the
description is marked attached to the desktop, in index order; the first
index that fails or is detached terminates the sequence (it is not
yielded, and no later output appears; `k` can also be cut by fuel,
standing for the unbounded `(0..)` loop).  The spec's end-to-end example
still yields exactly `[0, 1]` because its detached output sits at the
last probed index. -/
theorem get_adater_outputs_attached_prefix (env : AdapterEnv) (fuel : Nat) :
    (∃ k, get_adater_outputs env fuel = List.range k ∧ k ≤ fuel ∧
      (∀ j, j < k → okAttached env j) ∧
      (k < fuel → ¬ okAttached env k)) ∧
    get_adater_outputs specExampleEnv 10 = [0, 1] := by
  constructor
  · obtain ⟨k, hlist, hk, hall, hstop, _⟩ := getAdapterOutputsTracedAux_spec env fuel 0
    refine ⟨k, ?_, hk, ?_, ?_⟩
    · simpa [get_adater_outputs, get_adater_outputs_traced, List.range_eq_range']
        using hlist
    · intro j hj
      exact hall j (Nat.zero_le j) (by omega)
    · intro h
      simpa using hstop h
  · decide

/-- Claim C1 witness: the amended theorem evaluated on the spec's example
scenario. -/
theorem get_adater_outputs_attached_prefix_witness :
    (∃ k, get_adater_outputs specExampleEnv 10 = List.range k ∧ k ≤ 10 ∧
      (∀ j, j < k → okAttached specExampleEnv j) ∧
      (k < 10 → ¬ okAttached specExampleEnv k)) ∧
    get_adater_outputs specExampleEnv 10 = [0, 1] :=
  get_adater_outputs_attached_prefix specExampleEnv 10

/-! ## Claim C6: the sequence is materialized eagerly, not lazily -/

/-- Claim C6 counterexample: the claim says each element is fetched from
the foreign `EnumOutputs` primitive only on demand, not all at once when
the enumeration is initiated.  On `twoAttachedEnv` the single invocation
of `get_adater_outputs` already performs all 3 foreign calls (indices 0
and 1 plus the terminating not-found probe at 2) and hands back the fully
materialized two-element vector; the call count of the invocation is not
zero, so no fetch is left to be driven by later demand. -/
theorem get_adater_outputs_eager_cex :
    get_adater_outputs_traced twoAttachedEnv 10 = ([0, 1], 3) ∧
    (get_adater_outputs_traced twoAttachedEnv 10).2 ≠ 0 := by
  constructor
  · decide
  · intro h
    rw [show get_adater_outputs_traced twoAttachedEnv 10 = ([0, 1], 3) from by decide]
      at h
    simp at h

/-- Claim C6 (amended): the sequence is finite (a fully materialized
vector of at most `fuel` elements), and every foreign fetch happens
eagerly inside the single invocation: the invocation performs one
`EnumOutputs` call per yielded element plus one for the terminating
index (capped by fuel), before the vector is returned.  Being a plain
vector, the result can then be re-traversed freely without further
foreign calls. -/
theorem get_adater_outputs_eager_spec (env : AdapterEnv) (fuel : Nat) :
    (get_adater_outputs env fuel).length ≤ fuel ∧
    (get_adater_outputs_traced env fuel).2 =
      min fuel ((get_adater_outputs env fuel).length + 1) := by
  obtain ⟨k, hlist, hk, _, _, hcount⟩ := getAdapterOutputsTracedAux_spec env fuel 0
  have hlen : (get_adater_outputs env fuel).length = k := by
    simp [get_adater_outputs, get_adater_outputs_traced, hlist]
  rw [hlen]
  exact ⟨hk, hcount⟩

/-! ## Claim C2: failure of the texture capability query inside get_frame -/

/-- Claim C2 counterexample: the claim says that when the reinterpretation
of the acquired frame resource as a 2-D texture fails with a status code,
`get_frame` returns that code as the error result rather than aborting.
In `qiFailEnv` the acquisition succeeds and that capability query fails
with `E_NOINTERFACE` (-2147467262), yet `get_frame` panics (the source
calls `.unwrap()` on the `Err` at line 149), so the outcome is an abort,
not `Err(-2147467262)`. -/
theorem get_frame_texture_qi_cex :
    (get_frame qiFailEnv 100 false).1 = GetFrameResult.panicked ∧
    (get_frame qiFailEnv 100 false).1 ≠ GetFrameResult.err (-2147467262) := by
  refine ⟨by decide, ?_⟩
  intro h
  rw [show (get_frame qiFailEnv 100 false).1 = GetFrameResult.panicked from by decide]
    at h
  simp at h

/-- Claim C2 (amended): for every acquired frame, if the capability query
reinterpreting the frame resource as a 2-D texture fails, `get_frame`
panics — the failing `Result` is `.unwrap()`ed, aborting the program —
instead of returning the status code as the error result. -/
theorem get_frame_texture_qi_panics (env : FrameEnv) (t : Int) (s : Bool)
    (hacq : hr_failed (env.acquireNextFrame (as_u32 t)) = false)
    (hqi : hr_failed env.qiTexture2D = true) :
    (get_frame env t s).1 = GetFrameResult.panicked := by
  simp [get_frame, hacq, hqi]

/-- Claim C2 witness: the amended theorem at `qiFailEnv`. -/
theorem get_frame_texture_qi_panics_witness :
    (get_frame qiFailEnv 100 false).1 = GetFrameResult.panicked :=
  get_frame_texture_qi_panics qiFailEnv 100 false (by decide) (by decide)

/-! ## Claim C3: error paths of get_frame and the acquired frame -/

/-- Claim C3 counterexample: the claim says a `get_frame` whose
acquisition succeeded but whose later step failed leaves no acquired
frame pending release.  In `createFailEnv`, `AcquireNextFrame` succeeds
and the staging-texture creation fails with `DXGI_ERROR_DEVICE_REMOVED`:
`get_frame` returns that error, yet the duplication session is left with
the acquired frame still pending release (no path of `get_frame` calls
`ReleaseFrame`), so the acquired-frame flag is `true`, not `false` as the
claim requires. -/
theorem get_frame_error_leaves_pending_cex :
    (get_frame createFailEnv 100 false).1 = GetFrameResult.err (-2005270523) ∧
    (get_frame createFailEnv 100 false).2 = true ∧
    (get_frame createFailEnv 100 false).2 ≠ false := by
  refine ⟨by decide, by decide, ?_⟩
  intro h
  rw [show (get_frame createFailEnv 100 false).2 = true from by decide] at h
  simp at h

/-- Claim C3 (amended): the acquired-frame pairing state after `get_frame`
is: unchanged when the initial `AcquireNextFrame` fails, and `true` —
a frame acquired and pending release — whenever the initial acquisition
succeeds, on the fully successful path and on every failing later step
alike (texture reinterpretation panic, staging-creation error, final
surface reinterpretation error); no path of `get_frame` performs a
release, so a mid-`get_frame` failure after a successful acquisition does
desynchronize the acquire/release pairing unless the caller compensates. -/
theorem get_frame_acquired_flag (env : FrameEnv) (t : Int) (s : Bool) :
    (get_frame env t s).2 =
      (if hr_failed (env.acquireNextFrame (as_u32 t)) then s else true) := by
  by_cases h1 : hr_failed (env.acquireNextFrame (as_u32 t)) <;>
    by_cases h2 : hr_failed env.qiTexture2D <;>
    by_cases h3 : hr_failed (env.createTexture2D (stagingDesc env.textureDesc)) <;>
    by_cases h4 : hr_failed env.qiReadableResource <;>
    by_cases h5 : hr_failed env.qiFrameResource <;>
    by_cases h6 : hr_failed env.qiSurface1 <;>
    simp [get_frame, h1, h2, h3, h4, h5, h6]

/-! ## Claim C4: the staging description derived in get_frame -/

/-- Claim C4: for every source texture description, the staging
description `get_frame` derives from it (lib.rs lines 151-158) has usage
`D3D11_USAGE_STAGING`, bind flags 0, CPU-access flags exactly
`D3D11_CPU_ACCESS_READ`, and misc flags 0, while width, height, mip
levels, array size, format and sample parameters are unchanged from the
source description. -/
theorem stagingDesc_spec (d : TEXTURE2D_DESC) :
    (stagingDesc d).Usage = D3D11_USAGE.D3D11_USAGE_STAGING ∧
    (stagingDesc d).BindFlags = 0 ∧
    (stagingDesc d).CPUAccessFlags = D3D11_CPU_ACCESS_READ ∧
    (stagingDesc d).MiscFlags = 0 ∧
    (stagingDesc d).Width = d.Width ∧
    (stagingDesc d).Height = d.Height ∧
    (stagingDesc d).MipLevels = d.MipLevels ∧
    (stagingDesc d).ArraySize = d.ArraySize ∧
    (stagingDesc d).Format = d.Format ∧
    (stagingDesc d).SampleCount = d.SampleCount ∧
    (stagingDesc d).SampleQuality = d.SampleQuality :=
  ⟨rfl, rfl, rfl, rfl, rfl, rfl, rfl, rfl, rfl, rfl, rfl⟩

/-! ## Claim C5: refcount accounting of query_interface -/

/-- Claim C5: over the lifetime of a successfully constructed handle,
exactly one `Release` of the underlying foreign reference occurs, on both
branches of `query_interface`: a plain drop releases once; a
`query_interface` consuming the handle releases once on either branch; on
success the foreign call also AddRefs exactly once for the new handle,
so the traded object's net refcount is unchanged and the new handle
accounts for exactly one reference (released by its own later drop); on
failure there is no AddRef, the single release still happens, and
`Err(status_code)` is returned — no double release and no leak. -/
theorem query_interface_refcount (hr : Int) :
    releaseCount drop_events = 1 ∧
    releaseCount (query_interface_events hr) = 1 ∧
    (hr_failed hr = false →
      addRefCount (query_interface_events hr) = 1 ∧
      query_interface_result hr = Except.ok ()) ∧
    (hr_failed hr = true →
      addRefCount (query_interface_events hr) = 0 ∧
      query_interface_result hr = Except.error hr) := by
  by_cases h : hr_failed hr <;>
    simp [query_interface_events, drop_events, releaseCount, addRefCount,
      query_interface_result, h]

/-- Claim C5 witness: the accounting theorem evaluated at a succeeding
(`S_OK` = 0) and at a failing (`E_NOINTERFACE` = -2147467262)
`QueryInterface` status. -/
theorem query_interface_refcount_witness :
    addRefCount (query_interface_events 0) = 1 ∧
    releaseCount (query_interface_events 0) = 1 ∧
    addRefCount (query_interface_events (-2147467262)) = 0 ∧
    releaseCount (query_interface_events (-2147467262)) = 1 ∧
    query_interface_result (-2147467262) = Except.error (-2147467262) :=
  ⟨((query_interface_refcount 0).2.2.1 (by decide)).1,
    (query_interface_refcount 0).2.1,
    ((query_interface_refcount (-2147467262)).2.2.2 (by decide)).1,
    (query_interface_refcount (-2147467262)).2.1,
    ((query_interface_refcount (-2147467262)).2.2.2 (by decide)).2⟩

/-! ## Claim C7: release_frame surfaces the status unchanged -/

/-- Claim C7: every call to `release_frame` invokes the duplication
session's `ReleaseFrame` primitive exactly once; a success status (not
`hr_failed`, i.e. non-negative) yields `Ok(())`, and a failure status
yields `Err` carrying that status code unchanged — no retry, no
substitution, no swallowing. -/
theorem release_frame_spec (hr : Int) :
    (release_frame hr).2 = 1 ∧
    (hr_failed hr = false → (release_frame hr).1 = Except.ok ()) ∧
    (hr_failed hr = true → (release_frame hr).1 = Except.error hr) := by
  by_cases h : hr_failed hr <;> simp [release_frame, h]

/-- Claim C7 witness: `release_frame` at `S_OK` (0) and at
`DXGI_ERROR_INVALID_CALL` (0x887A0001, i.e. -2005270527 signed). -/
theorem release_frame_spec_witness :
    (release_frame 0).2 = 1 ∧
    (release_frame 0).1 = Except.ok () ∧
    (release_frame (-2005270527)).1 = Except.error (-2005270527) :=
  ⟨(release_frame_spec 0).1,
    (release_frame_spec 0).2.1 (by decide),
    (release_frame_spec (-2005270527)).2.2 (by decide)⟩

/-! ## Claim C8: is_primary as a pure bit-0 query -/

/-- Claim C8: `is_primary` hands the monitor handle from the output's
description to the windowing subsystem's monitor-info query and (when
that query succeeds and fills the record) returns `true` exactly when bit
0 of the returned `dwFlags` field is set; and it is a pure query — the
duplication session's acquire/release state is passed through
unchanged. -/
theorem is_primary_spec (desc : OUTPUT_DESC) (win : WinEnv) (s : Bool)
    (hok : (win.monitorInfo desc.Monitor).1 = true) :
    (is_primary desc win s).2 = s ∧
    ((is_primary desc win s).1 = true ↔
      Nat.testBit (win.monitorInfo desc.Monitor).2 0 = true) := by
  refine ⟨rfl, ?_⟩
  simp only [is_primary, hok, if_true]
  rw [land_one_bne_zero]

/-- Claim C8 witness: on `primaryWin`, monitor 7's info query succeeds
with `dwFlags = 1`, and `is_primary` returns `true` while leaving the
session state untouched. -/
theorem is_primary_spec_witness :
    (is_primary monitor7Desc primaryWin false).2 = false ∧
    (is_primary monitor7Desc primaryWin false).1 = true :=
  ⟨(is_primary_spec monitor7Desc primaryWin false (by decide)).1,
    (is_primary_spec monitor7Desc primaryWin false (by decide)).2.mpr (by decide)⟩

/-! ## Claim C9: is_primary ignores the query's BOOL result -/

/-- Claim C9: `is_primary` is total (it returns a plain `Bool`, never an
error), the BOOL result of `GetMonitorInfoW` is ignored, and when that
call fails the `MONITORINFO` record keeps its zero initialization, so
`is_primary` returns `false` rather than reporting the failure; the
session state is again passed through unchanged. -/
theorem is_primary_fail_false (desc : OUTPUT_DESC) (win : WinEnv) (s : Bool)
    (hfail : (win.monitorInfo desc.Monitor).1 = false) :
    (is_primary desc win s).1 = false ∧ (is_primary desc win s).2 = s := by
  refine ⟨?_, rfl⟩
  simp [is_primary, hfail, Nat.land]

/-- Claim C9 witness: on `failWin` every monitor-info query fails (even
though the flags it would have reported have bit 0 set), and `is_primary`
returns `false`. -/
theorem is_primary_fail_false_witness :
    (is_primary monitor7Desc failWin true).1 = false ∧
    (is_primary monitor7Desc failWin true).2 = true :=
  is_primary_fail_false monitor7Desc failWin true (by decide)

/-! ## Claim C10: the timeout cast truncates modulo 2^32 -/

/-- Claim C10: `get_frame` converts the caller's timeout to a signed
64-bit millisecond count and casts it with `as u32` for the
`AcquireNextFrame` call; for every count that is negative or exceeds
2^32 - 1, the value actually passed to the foreign acquisition primitive
is the count reduced modulo 2^32 — provably different from the requested
count — and `get_frame` behaves exactly as if that reduced timeout had
been requested. -/
theorem as_u32_truncates (ms : Int) (h : ms < 0 ∨ 4294967295 < ms) :
    (as_u32 ms : Int) = ms % 4294967296 ∧
    (as_u32 ms : Int) ≠ ms ∧
    (∀ env : FrameEnv, ∀ s : Bool,
      get_frame env ms s = get_frame env (as_u32 ms : Int) s) := by
  refine ⟨?_, ?_, ?_⟩
  · unfold as_u32; omega
  · unfold as_u32; omega
  · intro env s
    have hsame : as_u32 ((as_u32 ms : Int)) = as_u32 ms := by
      unfold as_u32; omega
    unfold get_frame
    rw [hsame]

/-- Claim C10 witness: a -1 ms count (negative `Duration`) is passed to
`AcquireNextFrame` as 4294967295 ms, and a 2^32 ms count as 0 ms. -/
theorem as_u32_truncates_witness :
    (as_u32 (-1) : Int) = 4294967295 ∧ (as_u32 (-1) : Int) ≠ -1 ∧
    (as_u32 4294967296 : Int) = 0 ∧ (as_u32 4294967296 : Int) ≠ 4294967296 :=
  ⟨by decide, (as_u32_truncates (-1) (Or.inl (by decide))).2.1,
    by decide, (as_u32_truncates 4294967296 (Or.inr (by decide))).2.1⟩

end Dxgcap
